import Mathlib

/-!
Verification of the serverless image-ingestion pipeline
(`src/lambda_function.py`, `tests/extract_metrics.py`,
`tests/add_realistic_variation.py`).

Shallow embedding conventions:
* Python floats are modelled as rationals (`ℚ`).
* The object store, the image decoder, the two random draws
  (long-tail flag and classification choice), the measured wall-clock
  duration and the write failure of `put_item` are supplied as an
  oracle environment `Env`; the handler itself is a pure function of
  that environment, the process-wide warm flag and the event records.
* Python exceptions are modelled with `Except HandlerError`.
-/

namespace ImagePipeline

/-- A byte string (object contents), as a list of byte values. -/
abbrev Bytes := List Nat

/-- Hexadecimal digit value of a character, as used by percent-decoding
(`urllib.parse.unquote_plus`). `none` when the character is not a hex digit. -/
def hexVal (c : Char) : Option Nat :=
  if '0' ≤ c ∧ c ≤ '9' then some (c.toNat - '0'.toNat)
  else if 'a' ≤ c ∧ c ≤ 'f' then some (c.toNat - 'a'.toNat + 10)
  else if 'A' ≤ c ∧ c ≤ 'F' then some (c.toNat - 'A'.toNat + 10)
  else none

/-- Character-list worker for `urllib.parse.unquote_plus`: `+` becomes a
space, `%XY` with two hex digits becomes the character of code `16*X + Y`,
an invalid `%` sequence is kept literally. -/
def unquotePlusAux : List Char → List Char
  | [] => []
  | '+' :: rest => ' ' :: unquotePlusAux rest
  | '%' :: a :: b :: rest =>
      match hexVal a, hexVal b with
      | some ha, some hb => Char.ofNat (16 * ha + hb) :: unquotePlusAux rest
      | _, _ => '%' :: unquotePlusAux (a :: b :: rest)
  | c :: rest => c :: unquotePlusAux rest

/-- `urllib.parse.unquote_plus`, as called at `lambda_function.py:44`. -/
def unquote_plus (s : String) : String := String.mk (unquotePlusAux s.data)

/-- Python's `round` at integer precision: round half to even. -/
def pyRoundInt (q : ℚ) : ℤ :=
  if q - Int.floor q < 1 / 2 then Int.floor q
  else if q - Int.floor q > 1 / 2 then Int.floor q + 1
  else if 2 ∣ Int.floor q then Int.floor q else Int.floor q + 1

/-- Python's `round(x, 2)`: round half to even at two decimal places. -/
def pyRound2 (q : ℚ) : ℚ := (pyRoundInt (q * 100) : ℚ) / 100

/-- `complexity_score = min(file_size / (10 * 1024 * 1024), 1.0)`
(`lambda_function.py:61`). -/
def complexity_score (file_size : ℕ) : ℚ :=
  min ((file_size : ℚ) / (10 * 1024 * 1024)) 1

/-- `base_latency = 200 + (complexity_score * 1800)` (`lambda_function.py:64`). -/
def base_latency (file_size : ℕ) : ℚ :=
  200 + complexity_score file_size * 1800

/-- The simulated latency after the long-tail draw: `base_latency`,
plus 1000 when the 5% draw triggered (`lambda_function.py:65-69`).
`longTail` is the outcome of `random.random() < 0.05`. -/
def simulated_latency_ms (file_size : ℕ) (longTail : Bool) : ℚ :=
  if longTail then base_latency file_size + 1000 else base_latency file_size

/-- One record of the trigger event: `record['s3']['bucket']['name']`
and `record['s3']['object']['key']`. -/
structure S3Rec where
  bucketName : String
  objectKey : String
deriving DecidableEq

/-- The row written to the table store (`record_data`,
`lambda_function.py:85-96`). `processing_latency` and
`simulated_latency` are stored rounded to two decimals
(`Decimal(str(round(x, 2)))`). -/
structure Row where
  filename : String
  file_size : ℕ
  processing_latency : ℚ
  is_cold_start : Bool
  simulated_classification : String
  width : ℕ
  height : ℕ
  fmt : String
  timestamp : ℤ
  simulated_latency : ℚ
deriving DecidableEq

/-- The structured success response (`lambda_function.py:105-115`);
the JSON body is modelled as its fields. -/
structure Response where
  statusCode : ℕ
  message : String
  filename : String
  classification : String
  is_cold_start : Bool
  simulated_latency_ms : ℚ
  actual_execution_time_ms : ℚ
deriving DecidableEq

/-- The exceptions the handler can propagate: `s3_client.get_object`
failing, `Image.open` failing on undecodable bytes, and
`table.put_item` failing. -/
inductive HandlerError where
  | storeGetError (bucketName objectKey : String)
  | imageDecodeError
  | putError
deriving DecidableEq

/-- Oracle environment for one invocation: the object store, the image
decoder, both random draws, the measured wall-clock duration and the
table-write outcome. `decodeImage` returns `(width, height, format)`
with `format = none` modelling `image.format` being `None`
(mapped to `Unknown` at `lambda_function.py:55`). -/
structure Env where
  store : String → String → Option Bytes
  decodeImage : Bytes → Option (ℕ × ℕ × Option String)
  longTail : Bool
  classIdx : Fin 3
  actualMs : ℚ
  nowSec : ℤ
  putFails : Bool

/-- The closed label set of `random.choice(["Document", "Receipt", "Photo"])`
(`lambda_function.py:76`). -/
def classLabels : List String := ["Document", "Receipt", "Photo"]

/-- Processing of a single event record (the body of the `for` loop,
`lambda_function.py:42-115`): decode the key, fetch the object, decode
the image, compute the simulated latency and classification, assemble
the row, write it, and build the structured response. Any failure is
propagated as an error. -/
def processRecord (env : Env) (is_cold : Bool) (r : S3Rec) :
    Except HandlerError (Row × Response) :=
  let object_key := unquote_plus r.objectKey
  match env.store r.bucketName object_key with
  | none => .error (.storeGetError r.bucketName object_key)
  | some image_data =>
    match env.decodeImage image_data with
    | none => .error .imageDecodeError
    | some (width, height, fmtOpt) =>
      let file_size := image_data.length
      let image_format := fmtOpt.getD "Unknown"
      let simulated := simulated_latency_ms file_size env.longTail
      let classification := classLabels.get ⟨env.classIdx.val, by
        cases env.classIdx with
        | mk v h => simpa [classLabels] using h⟩
      let row : Row :=
        { filename := object_key
          file_size := file_size
          processing_latency := pyRound2 env.actualMs
          is_cold_start := is_cold
          simulated_classification := classification
          width := width
          height := height
          fmt := image_format
          timestamp := env.nowSec
          simulated_latency := pyRound2 simulated }
      if env.putFails then .error .putError
      else
        .ok (row,
          { statusCode := 200
            message := "Image processed successfully"
            filename := object_key
            classification := classification
            is_cold_start := is_cold
            simulated_latency_ms := simulated
            actual_execution_time_ms := env.actualMs })

/-- The `for record in event.get('Records', [])` loop
(`lambda_function.py:41-115`). The `return` statement sits inside the
loop body, so a successful first iteration ends the function: records
after the head are never reached. An empty list falls through the loop
and the function returns `None` (no response). The result carries the
rows written and the optional response. -/
def processRecords (env : Env) (is_cold : Bool) :
    List S3Rec → Except HandlerError (List Row × Option Response)
  | [] => .ok ([], none)
  | r :: _rest =>
      match processRecord env is_cold r with
      | .error e => .error e
      | .ok (row, resp) => .ok ([row], some resp)

/-- `lambda_handler(event, context)` (`lambda_function.py:21-119`).
The event's `Records` list is the `records` argument (`event.get`
returns `[]` when the key is absent). `warm` is the process-wide
`_is_warm` global before the call; the returned first component is its
value after the call — set to `True` unconditionally before the `try`
block. The `except` clause re-raises the same exception, which the
`Except` result models directly. -/
def lambda_handler (env : Env) (warm : Bool) (records : List S3Rec) :
    Bool × Except HandlerError (List Row × Option Response) :=
  (true, processRecords env (!warm) records)

/-- The observable outcome of one invocation: the cold-start flag it
reported (`is_cold_start = not _is_warm`, `lambda_function.py:32`) and
its result. -/
structure InvocationOut where
  is_cold : Bool
  result : Except HandlerError (List Row × Option Response)

/-- A sequence of invocations within one process lifetime, threading
the `_is_warm` global through `lambda_handler`. Each element pairs an
oracle environment with the event's record list. -/
def runLifetime (warm : Bool) : List (Env × List S3Rec) → List InvocationOut
  | [] => []
  | (env, records) :: rest =>
      let out := lambda_handler env warm records
      ⟨!warm, out.2⟩ :: runLifetime out.1 rest

/-- The rows an invocation persisted (none when it errored). -/
def rowsOf (out : InvocationOut) : List Row :=
  match out.result with
  | .error _ => []
  | .ok (rows, _) => rows

/-- How many persisted rows of a lifetime carry `is_cold_start = true`. -/
def coldRowCount (outs : List InvocationOut) : ℕ :=
  (outs.map fun out => ((rowsOf out).filter fun row => row.is_cold_start).length).sum

/-- One row of the tabular file produced by the metrics-extraction scan
tool (`extract_metrics.py:108-114`). -/
structure MetricsRow where
  filename : String
  file_size_kb : ℚ
  processing_latency_ms : ℚ
  cold_start : Bool
  simulated_class : String
deriving DecidableEq

/-- The per-item projection of `transform_to_dataframe`
(`extract_metrics.py:94-115`), on items that carry every field —
which every row written by the handler does, so the `item.get`
defaults never fire. -/
def transform_item (item : Row) : MetricsRow :=
  { filename := item.filename
    file_size_kb := pyRound2 ((item.file_size : ℚ) / 1024)
    processing_latency_ms := item.processing_latency
    cold_start := item.is_cold_start
    simulated_class := item.simulated_classification }

/-- `transform_to_dataframe` (`extract_metrics.py:85-118`): one output
row per input item. -/
def transform_to_dataframe (items : List Row) : List MetricsRow :=
  items.map transform_item

/-- `max(50, min(200, np.random.normal(125, 40)))`
(`add_realistic_variation.py:34-35`); the argument is the raw normal
draw. -/
def cold_start_overhead (draw : ℚ) : ℚ := max 50 (min 200 draw)

/-- `max(10, min(50, np.random.normal(25, 10)))`
(`add_realistic_variation.py:36-37`); the argument is the raw normal
draw. -/
def network_overhead (draw : ℚ) : ℚ := max 10 (min 50 draw)

/-- `total_overhead` for a cold-start row in the AWS scenario
(`add_realistic_variation.py:32-38`): the sum of the two clamped
draws. -/
def aws_cold_total_overhead (draw1 draw2 : ℚ) : ℚ :=
  cold_start_overhead draw1 + network_overhead draw2

/-! ### Supporting lemmas -/

lemma complexity_score_mono {a b : ℕ} (h : a ≤ b) :
    complexity_score a ≤ complexity_score b := by
  unfold complexity_score
  refine min_le_min ?_ le_rfl
  have hab : (a : ℚ) ≤ (b : ℚ) := by exact_mod_cast h
  gcongr

lemma complexity_score_of_ge {n : ℕ} (h : 10485760 ≤ n) :
    complexity_score n = 1 := by
  unfold complexity_score
  refine min_eq_right ?_
  rw [le_div_iff₀ (by norm_num)]
  have : (10485760 : ℚ) ≤ (n : ℚ) := by exact_mod_cast h
  linarith

lemma base_latency_mono {a b : ℕ} (h : a ≤ b) :
    base_latency a ≤ base_latency b := by
  unfold base_latency
  have := complexity_score_mono h
  linarith

lemma base_latency_of_ge {n : ℕ} (h : 10485760 ≤ n) :
    base_latency n = 2000 := by
  unfold base_latency
  rw [complexity_score_of_ge h]
  norm_num

lemma processRecord_ok_spec {env : Env} {c : Bool} {r : S3Rec}
    {row : Row} {resp : Response}
    (h : processRecord env c r = .ok (row, resp)) :
    ∃ image_data : Bytes,
      env.store r.bucketName (unquote_plus r.objectKey) = some image_data ∧
      row.filename = unquote_plus r.objectKey ∧
      row.file_size = image_data.length ∧
      row.is_cold_start = c ∧
      resp.filename = unquote_plus r.objectKey ∧
      resp.is_cold_start = c ∧
      resp.simulated_latency_ms
        = simulated_latency_ms image_data.length env.longTail ∧
      row.simulated_latency = pyRound2 resp.simulated_latency_ms ∧
      row.simulated_classification = resp.classification := by
  simp only [processRecord] at h
  split at h
  · exact absurd h (by simp)
  · split at h
    · exact absurd h (by simp)
    · split at h
      · exact absurd h (by simp)
      · rename_i image_data hstore whf width height fmtOpt hdecode hput
        rw [Except.ok.injEq, Prod.mk.injEq] at h
        obtain ⟨hrow, hresp⟩ := h
        subst hrow hresp
        exact ⟨image_data, hstore, rfl, rfl, rfl, rfl, rfl, rfl, rfl, rfl⟩

/-! ### Claims -/

/-- C3: `base_latency` is monotonically non-decreasing in the file size
on [0, 10 MiB], with value 200 at 0 bytes and 2000 at 10 MiB, and every
file size above 10 MiB yields the same value as exactly 10 MiB. -/
theorem C3_base_latency_shape :
    (∀ a b : ℕ, a ≤ b → b ≤ 10485760 → base_latency a ≤ base_latency b) ∧
    base_latency 0 = 200 ∧
    base_latency 10485760 = 2000 ∧
    (∀ n : ℕ, 10485760 < n → base_latency n = base_latency 10485760) := by
  refine ⟨fun a b hab _ => base_latency_mono hab, ?_, ?_, fun n hn => ?_⟩
  · unfold base_latency complexity_score
    norm_num
  · exact base_latency_of_ge le_rfl
  · rw [base_latency_of_ge hn.le, base_latency_of_ge le_rfl]

/-- Witness for C3 at concrete inputs. -/
theorem C3_base_latency_shape_witness :
    base_latency 1024 ≤ base_latency 2048 ∧
    base_latency 10485761 = base_latency 10485760 :=
  ⟨C3_base_latency_shape.1 1024 2048 (by norm_num) (by norm_num),
   C3_base_latency_shape.2.2.2 10485761 (by norm_num)⟩

/-- C5: a 100 KB object yields complexity 5/512 (≈ 0.0098) and
base latency 13925/64 ms (≈ 217.6); a 5 MB object yields complexity 1/2
and base latency 1100; any object of 10 MB or more yields base
latency 2000. -/
theorem C5_concrete_scenarios :
    complexity_score (100 * 1024) = 5 / 512 ∧
    |complexity_score (100 * 1024) - 98 / 10000| < 1 / 10000 ∧
    base_latency (100 * 1024) = 13925 / 64 ∧
    |base_latency (100 * 1024) - 2176 / 10| < 5 / 100 ∧
    complexity_score (5 * 1024 * 1024) = 1 / 2 ∧
    base_latency (5 * 1024 * 1024) = 1100 ∧
    (∀ n : ℕ, 10 * 1024 * 1024 ≤ n → base_latency n = 2000) := by
  have h100 : complexity_score (100 * 1024) = 5 / 512 := by
    unfold complexity_score
    rw [min_eq_left (by norm_num)]
    norm_num
  have h5m : complexity_score (5 * 1024 * 1024) = 1 / 2 := by
    unfold complexity_score
    rw [min_eq_left (by norm_num)]
    norm_num
  refine ⟨h100, ?_, ?_, ?_, h5m, ?_, fun n hn => base_latency_of_ge (by linarith)⟩
  · rw [h100]; norm_num [abs_lt]
  · unfold base_latency; rw [h100]; norm_num
  · unfold base_latency; rw [h100]; norm_num [abs_lt]
  · unfold base_latency; rw [h5m]; norm_num

/-- Witness for C5 at a concrete over-10MB input. -/
theorem C5_concrete_scenarios_witness :
    base_latency 11000000 = 2000 :=
  C5_concrete_scenarios.2.2.2.2.2.2 11000000 (by norm_num)

/-- C8: for a cold-start row in the AWS scenario, the injected overhead
is the sum of the two independently drawn clamped values, and for every
possible pair of raw draws the total lies in [60, 250]. -/
theorem C8_variation_bounds :
    ∀ draw1 draw2 : ℚ,
      aws_cold_total_overhead draw1 draw2
        = cold_start_overhead draw1 + network_overhead draw2 ∧
      60 ≤ aws_cold_total_overhead draw1 draw2 ∧
      aws_cold_total_overhead draw1 draw2 ≤ 250 := by
  intro d1 d2
  refine ⟨rfl, ?_, ?_⟩
  · have h1 : (50 : ℚ) ≤ cold_start_overhead d1 := le_max_left _ _
    have h2 : (10 : ℚ) ≤ network_overhead d2 := le_max_left _ _
    unfold aws_cold_total_overhead
    linarith
  · have h1 : cold_start_overhead d1 ≤ 200 :=
      max_le (by norm_num) (min_le_left _ _)
    have h2 : network_overhead d2 ≤ 50 :=
      max_le (by norm_num) (min_le_left _ _)
    unfold aws_cold_total_overhead
    linarith

/-- C10: with an empty (or absent) `Records` list, the handler writes
no row, returns no structured response (`None`), is independent of the
oracle environment, and still flips the warm flag, so the next
invocation in the lifetime reports `is_cold_start = false`. -/
theorem C10_empty_records :
    ∀ (env env2 : Env) (warm : Bool) (records : List S3Rec)
      (rest : List (Env × List S3Rec)),
      lambda_handler env warm [] = (true, .ok ([], none)) ∧
      runLifetime false ((env, []) :: (env2, records) :: rest)
        = ⟨true, .ok ([], none)⟩
            :: ⟨false, (lambda_handler env2 true records).2⟩
            :: runLifetime true rest :=
  fun _ _ _ _ _ => ⟨rfl, rfl⟩

/-! ### Concrete fixtures for witnesses and counterexamples -/

/-- A two-object store used in concrete runs. -/
def storeC1 : String → String → Option Bytes := fun b k =>
  if b = "bkt" ∧ k = "a.png" then some [0, 1, 2]
  else if b = "bkt" ∧ k = "b.png" then some [3, 4, 5, 6]
  else none

/-- A concrete oracle environment: both objects decodable, no long
tail, classification draw 0 (`Document`), no write failure. -/
def envC1 : Env :=
  { store := storeC1
    decodeImage := fun _ => some (4, 5, some "PNG")
    longTail := false
    classIdx := ⟨0, by norm_num⟩
    actualMs := 250
    nowSec := 1700000000
    putFails := false }

def recA : S3Rec := ⟨"bkt", "a.png"⟩

def recB : S3Rec := ⟨"bkt", "b.png"⟩

/-- `envC1` with the long-tail draw forced to trigger. -/
def envTail : Env := { envC1 with longTail := true }

/-- `envC1` with a store that fails every fetch. -/
def envNoStore : Env := { envC1 with store := fun _ _ => none }

/-- A store holding an object under the percent-decoded key. -/
def envEnc : Env :=
  { envC1 with
    store := fun b k =>
      if b = "bkt" ∧ k = "my file.png" then some [9, 9] else none }

def recEnc : S3Rec := ⟨"bkt", "my%20file.png"⟩

/-- The row the handler persists for `recA` under `envC1`. -/
def rowA : Row :=
  { filename := "a.png", file_size := 3, processing_latency := pyRound2 250
    is_cold_start := true, simulated_classification := "Document"
    width := 4, height := 5, fmt := "PNG", timestamp := 1700000000
    simulated_latency := pyRound2 (simulated_latency_ms 3 false) }

/-- The response the handler returns for `recA` under `envC1`. -/
def respA : Response :=
  { statusCode := 200, message := "Image processed successfully"
    filename := "a.png", classification := "Document", is_cold_start := true
    simulated_latency_ms := simulated_latency_ms 3 false
    actual_execution_time_ms := 250 }

/-- The row for `recA` under `envTail` (long tail triggered). -/
def rowTail : Row :=
  { rowA with simulated_latency := pyRound2 (simulated_latency_ms 3 true) }

/-- The response for `recA` under `envTail` (long tail triggered). -/
def respTail : Response :=
  { respA with simulated_latency_ms := simulated_latency_ms 3 true }

/-- The row for `recEnc` under `envEnc` (percent-encoded key). -/
def rowEnc : Row :=
  { rowA with
    filename := "my file.png"
    file_size := 2
    simulated_latency := pyRound2 (simulated_latency_ms 2 false) }

/-- The response for `recEnc` under `envEnc`. -/
def respEnc : Response :=
  { respA with
    filename := "my file.png"
    simulated_latency_ms := simulated_latency_ms 2 false }

/-! ### Remaining claims on the handler -/

/-- C4: when the long-tail draw triggers, the simulated latency the
handler reports equals `base_latency + 1000` exactly; when it does
not, it equals `base_latency` exactly. -/
theorem C4_long_tail_exact :
    ∀ (env : Env) (is_cold : Bool) (r : S3Rec) (row : Row) (resp : Response),
      processRecord env is_cold r = .ok (row, resp) →
      (env.longTail = true →
        resp.simulated_latency_ms = base_latency row.file_size + 1000) ∧
      (env.longTail = false →
        resp.simulated_latency_ms = base_latency row.file_size) := by
  intro env c r row resp h
  obtain ⟨data, -, -, hsize, -, -, -, hsim, -, -⟩ := processRecord_ok_spec h
  constructor <;> intro hl <;>
    rw [hsim, hsize] <;> simp [simulated_latency_ms, hl]

/-- Witness for C4 on a concrete processed record with the tail
triggered. -/
theorem C4_long_tail_exact_witness :
    respTail.simulated_latency_ms = base_latency rowTail.file_size + 1000 :=
  (C4_long_tail_exact envTail true recA rowTail respTail (by rfl)).1 rfl

/-- C6: the percent-encoded key is decoded (`my%20file.png` becomes
`my file.png`), and for every successfully processed record the decoded
key is both the store-lookup key and the persisted/returned filename. -/
theorem C6_key_decoding :
    unquote_plus "my%20file.png" = "my file.png" ∧
    ∀ (env : Env) (is_cold : Bool) (r : S3Rec) (row : Row) (resp : Response),
      processRecord env is_cold r = .ok (row, resp) →
      row.filename = unquote_plus r.objectKey ∧
      resp.filename = unquote_plus r.objectKey ∧
      ∃ image_data : Bytes,
        env.store r.bucketName (unquote_plus r.objectKey) = some image_data ∧
        row.file_size = image_data.length := by
  refine ⟨by decide, ?_⟩
  intro env c r row resp h
  obtain ⟨data, hstore, hfn, hsize, -, hrfn, -, -, -, -⟩ :=
    processRecord_ok_spec h
  exact ⟨hfn, hrfn, data, hstore, hsize⟩

/-- Witness for C6 on a concrete record with an encoded key. -/
theorem C6_key_decoding_witness :
    rowEnc.filename = unquote_plus recEnc.objectKey ∧
    respEnc.filename = unquote_plus recEnc.objectKey ∧
    ∃ image_data : Bytes,
      envEnc.store recEnc.bucketName (unquote_plus recEnc.objectKey)
        = some image_data ∧
      rowEnc.file_size = image_data.length :=
  C6_key_decoding.2 envEnc true recEnc rowEnc respEnc (by rfl)

/-- C7: if processing the (first) record raises, the handler re-raises
the same error to the caller: no fallback result, and the warm flag is
already set. -/
theorem C7_error_propagation :
    ∀ (env : Env) (warm : Bool) (r : S3Rec) (rest : List S3Rec)
      (e : HandlerError),
      processRecord env (!warm) r = .error e →
      lambda_handler env warm (r :: rest) = (true, .error e) := by
  intro env warm r rest e h
  simp only [lambda_handler, processRecords, h]

/-- Witness for C7 on a concrete store-fetch failure. -/
theorem C7_error_propagation_witness :
    lambda_handler envNoStore false [recA]
      = (true, .error (.storeGetError "bkt" "a.png")) :=
  C7_error_propagation envNoStore false recA [] _ (by rfl)

/-- C9: every row the handler writes reads back through the scan tool's
transform with identical filename, cold-start flag and classification,
and the file size converted to kilobytes rounded to two decimals. -/
theorem C9_round_trip :
    ∀ (env : Env) (is_cold : Bool) (r : S3Rec) (row : Row) (resp : Response),
      processRecord env is_cold r = .ok (row, resp) →
      transform_to_dataframe [row] = [transform_item row] ∧
      (transform_item row).filename = row.filename ∧
      (transform_item row).cold_start = row.is_cold_start ∧
      (transform_item row).simulated_class = row.simulated_classification ∧
      (transform_item row).file_size_kb
        = pyRound2 ((row.file_size : ℚ) / 1024) :=
  fun _ _ _ _ _ _ => ⟨rfl, rfl, rfl, rfl, rfl⟩

/-- Witness for C9 on a concrete processed record. -/
theorem C9_round_trip_witness :
    transform_to_dataframe [rowA] = [transform_item rowA] ∧
    (transform_item rowA).filename = rowA.filename ∧
    (transform_item rowA).cold_start = rowA.is_cold_start ∧
    (transform_item rowA).simulated_class = rowA.simulated_classification ∧
    (transform_item rowA).file_size_kb
      = pyRound2 ((rowA.file_size : ℚ) / 1024) :=
  C9_round_trip envC1 true recA rowA respA (by rfl)

/-- C1 as written is false: in a two-record event, the second record is
never processed — only the first record's row is persisted. Concretely,
with both `a.png` and `b.png` in the store, the handler persists only
`a.png`'s row and returns `a.png`'s response. -/
theorem C1_counterexample :
    ((lambda_handler envC1 false [recA, recB]).2.map
        fun p => (p.1.map Row.filename, p.2.map Response.filename))
      = Except.ok (["a.png"], some "a.png") := by rfl

/-- C1 amended: the handler returns the first record's structured
response only, and records after the first are not processed at all —
the outcome is independent of them and only the first record's row is
persisted. -/
theorem C1_first_record_only :
    ∀ (env : Env) (warm : Bool) (r : S3Rec) (rest rest' : List S3Rec),
      lambda_handler env warm (r :: rest)
        = lambda_handler env warm (r :: rest') ∧
      ∀ rows orsp,
        (lambda_handler env warm (r :: rest)).2 = .ok (rows, orsp) →
        ∃ row resp, rows = [row] ∧ orsp = some resp ∧
          processRecord env (!warm) r = .ok (row, resp) := by
  intro env warm r rest rest'
  refine ⟨rfl, ?_⟩
  intro rows orsp h
  simp only [lambda_handler, processRecords] at h
  cases hp : processRecord env (!warm) r with
  | error e => rw [hp] at h; exact absurd h (by simp)
  | ok pr =>
      obtain ⟨row, resp⟩ := pr
      rw [hp] at h
      rw [Except.ok.injEq, Prod.mk.injEq] at h
      exact ⟨row, resp, h.1.symm, h.2.symm, rfl⟩

/-- Witness for C1's amended statement on the concrete two-record
event. -/
theorem C1_first_record_only_witness :
    ∃ row resp, [rowA] = [row] ∧ (some respA : Option Response) = some resp ∧
      processRecord envC1 (!false) recA = .ok (row, resp) :=
  (C1_first_record_only envC1 false recA [recB] []).2 [rowA] (some respA)
    (by rfl)

/-! ### Lifetime lemmas for the cold/warm invariant -/

lemma runLifetime_cons (warm : Bool) (env : Env) (records : List S3Rec)
    (rest : List (Env × List S3Rec)) :
    runLifetime warm ((env, records) :: rest)
      = ⟨!warm, (lambda_handler env warm records).2⟩ :: runLifetime true rest :=
  rfl

lemma processRecords_filter_cold {env : Env} {c : Bool} {recs : List S3Rec}
    {rows : List Row} {orsp : Option Response}
    (h : processRecords env c recs = .ok (rows, orsp)) :
    (rows.filter fun row => row.is_cold_start).length ≤ 1 ∧
    (c = false → rows.filter (fun row => row.is_cold_start) = []) := by
  cases recs with
  | nil =>
      simp only [processRecords, Except.ok.injEq, Prod.mk.injEq] at h
      rw [← h.1]
      simp
  | cons r rest =>
      simp only [processRecords] at h
      cases hp : processRecord env c r with
      | error e => rw [hp] at h; exact absurd h (by simp)
      | ok pr =>
          obtain ⟨row, resp⟩ := pr
          rw [hp, Except.ok.injEq, Prod.mk.injEq] at h
          obtain ⟨data, -, -, -, hcold, -⟩ := processRecord_ok_spec hp
          rw [← h.1]
          constructor
          · cases hrc : row.is_cold_start <;> simp [List.filter, hrc]
          · intro hc0
            rw [hc0] at hcold
            simp [List.filter, hcold]

lemma coldRowCount_cons (out : InvocationOut) (outs : List InvocationOut) :
    coldRowCount (out :: outs)
      = ((rowsOf out).filter fun row => row.is_cold_start).length
          + coldRowCount outs := by
  simp [coldRowCount]

lemma coldRowCount_runLifetime (warm : Bool) (invs : List (Env × List S3Rec)) :
    coldRowCount (runLifetime warm invs) ≤ if warm then 0 else 1 := by
  induction invs generalizing warm with
  | nil =>
      simp [runLifetime, coldRowCount]
  | cons inv rest ih =>
      obtain ⟨env, records⟩ := inv
      rw [runLifetime_cons, coldRowCount_cons]
      have hrest : coldRowCount (runLifetime true rest) = 0 :=
        Nat.le_zero.mp (by simpa using ih true)
      have hhead :
          ((rowsOf ⟨!warm, (lambda_handler env warm records).2⟩).filter
              fun row => row.is_cold_start).length ≤ if warm then 0 else 1 := by
        have h2 : (lambda_handler env warm records).2
            = processRecords env (!warm) records := rfl
        cases hres : processRecords env (!warm) records with
        | error e =>
            have hrows : rowsOf ⟨!warm, (lambda_handler env warm records).2⟩
                = [] := by simp [rowsOf, h2, hres]
            rw [hrows]
            cases warm <;> simp
        | ok p =>
            obtain ⟨rows, orsp⟩ := p
            have hf := processRecords_filter_cold hres
            have hrows : rowsOf ⟨!warm, (lambda_handler env warm records).2⟩
                = rows := by simp [rowsOf, h2, hres]
            rw [hrows]
            cases warm with
            | false => simpa using hf.1
            | true =>
                rw [hf.2 rfl]
                simp
      cases warm with
      | false => simpa [hrest] using hhead
      | true => simpa [hrest] using hhead

lemma runLifetime_warm_all_cold_false {invs : List (Env × List S3Rec)}
    {out : InvocationOut} (h : out ∈ runLifetime true invs) :
    out.is_cold = false := by
  induction invs with
  | nil => simp [runLifetime] at h
  | cons inv rest ih =>
      obtain ⟨env, records⟩ := inv
      rw [runLifetime_cons] at h
      rcases List.mem_cons.mp h with h | h
      · rw [h]; rfl
      · exact ih h

/-- C2: the warm flag flips to `true` on every invocation and never
reverts within a lifetime; a lifetime started cold reports
`is_cold_start = true` on its first invocation and `false` on every
later one, and at most one row persisted during the lifetime carries
`is_cold_start = true`. -/
theorem C2_cold_start_invariant :
    (∀ (env : Env) (warm : Bool) (records : List S3Rec),
        (lambda_handler env warm records).1 = true) ∧
    (∀ (env : Env) (records : List S3Rec) (rest : List (Env × List S3Rec)),
        runLifetime false ((env, records) :: rest)
          = ⟨true, (lambda_handler env false records).2⟩
              :: runLifetime true rest) ∧
    (∀ (invs : List (Env × List S3Rec)) (out : InvocationOut),
        out ∈ runLifetime true invs → out.is_cold = false) ∧
    (∀ invs : List (Env × List S3Rec),
        coldRowCount (runLifetime false invs) ≤ 1) :=
  ⟨fun _ _ _ => rfl,
   fun _ _ _ => rfl,
   fun _ _ h => runLifetime_warm_all_cold_false h,
   fun invs => by simpa using coldRowCount_runLifetime false invs⟩

/-- Witness for C2: a concrete second invocation in a warm lifetime
reports `is_cold_start = false`, and a concrete two-invocation lifetime
persists at most one cold row. -/
theorem C2_cold_start_invariant_witness :
    (⟨false, (lambda_handler envC1 true [recA]).2⟩ : InvocationOut).is_cold
        = false ∧
    coldRowCount (runLifetime false [(envC1, [recA]), (envTail, [recB])]) ≤ 1 :=
  ⟨C2_cold_start_invariant.2.2.1 [(envC1, [recA])] _ (List.mem_cons_self _ _),
   C2_cold_start_invariant.2.2.2 [(envC1, [recA]), (envTail, [recB])]⟩

end ImagePipeline
